import Mathlib

/-!
Verification of the preparation-parameter orchestrator of tss-lib
(`ecdsa/keygen/prepare.go`, function `GeneratePreParams`).

The orchestrator is embedded shallowly: its collaborators
(`paillier.GenerateKeyPair`, `common.GetRandomGermainPrimesConcurrent`,
`crypto.GenerateNTildei`) live in packages outside the file under study, so
they are modelled as components of an environment record `Env`; the
orchestrator's own control flow — variadic-argument handling, the panic on
more than one optional argument, the discarded Paillier error, the indexing
into the safe-prime slice, the error check on the NTilde derivation, and the
assembly of the result record — is translated statement by statement from
the Go source.  A run also produces a trace of the collaborator calls made,
with their exact arguments, so that claims about which subtasks are launched
and with which parameters can be stated.
-/

namespace TssLib

/-- Errors from collaborator packages (Go `error` values), modelled as
their message strings. -/
abbrev Err := String

/-- Modelled from the spec: `paillier.PrivateKey` (package `crypto/paillier`,
not under study here) is opaque secret-key material from the orchestrator's
point of view; only its presence or absence matters to the claims. -/
structure PaillierPrivateKey where
  val : Nat
deriving DecidableEq, Repr

/-- Modelled from the spec: `common.GermainPrime` (package `common`, not
under study here) holds a Sophie Germain prime `q`; per spec §3 a SafePrime
is "an ordered pair (q, p) where p = 2q+1". -/
structure GermainPrime where
  q : Nat
deriving DecidableEq, Repr

/-- Modelled from the spec: the `SafePrime()` accessor returns the safe
prime `p = 2q + 1` of the pair, not the Sophie Germain component `q`. -/
def GermainPrime.SafePrime (g : GermainPrime) : Nat := 2 * g.q + 1

/-- Modelled from the spec: fixed protocol constant, the Paillier modulus
bit length (declared elsewhere in package `keygen`; the claims depend only
on it being a fixed constant, not on its value). -/
def PaillierModulusLen : Nat := 2048

/-- Modelled from the spec: fixed protocol constant, the bit length of the
Sophie Germain component of the safe primes. -/
def SafePrimeBitLen : Nat := 1024

/-- One collaborator call made by the orchestrator, with its arguments. -/
inductive Call where
  | paillierGenerateKeyPair (modulusBitLen : Nat)
  | getRandomGermainPrimesConcurrent (bitLen count : Nat) (concurrency : Int)
  | generateNTildei (p1 p2 : Nat)
deriving DecidableEq, Repr

/-- Whether a trace entry is an invocation of the Paillier key generator. -/
def Call.isPaillierCall : Call → Bool
  | Call.paillierGenerateKeyPair _ => true
  | _ => false

/-- The behaviour of the collaborators for one run: the host CPU count
(`runtime.NumCPU`), the Paillier key generation (value and error return),
the concurrent safe-prime search, and the NTilde derivation. -/
structure Env where
  numCPU : Nat
  generateKeyPair : Nat → Option PaillierPrivateKey × Option Err
  getRandomGermainPrimesConcurrent : Nat → Nat → Int → List GermainPrime
  generateNTildei : Nat → Nat → Except Err (Nat × Nat × Nat)

/-- The result record assembled at prepare.go:62-68.  The struct definition
itself lives elsewhere in package `keygen`; the fields are exactly the ones
the orchestrator populates.  Go pointer fields that may be nil are Options;
the derivation outputs are delivered as numbers by `generateNTildei`. -/
structure LocalPreParams where
  PaillierSK : Option PaillierPrivateKey
  NTildei : Nat
  H1i : Nat
  H2i : Nat
deriving DecidableEq, Repr

/-- How one invocation ends: a Go panic (with its message), or a normal
return of the pair `(*LocalPreParams, error)`. -/
inductive Outcome where
  | panicked (msg : String)
  | returned (preParams : Option LocalPreParams) (err : Option Err)
deriving DecidableEq, Repr

/-- A whole run: the collaborator calls made, and how the call ended. -/
structure RunResult where
  trace : List Call
  outcome : Outcome
deriving DecidableEq, Repr

/-- The message of the panic raised at prepare.go:27 on a bad variadic
argument count. -/
def argPanicMsg : String :=
  "GeneratePreParams: expected 0 or 1 item in optionalConcurrency"

/-- The Go runtime panic raised by `sgps[0]` / `sgps[1]` at prepare.go:57
when the safe-prime search delivers fewer than two primes. -/
def indexPanicMsg : String := "runtime error: index out of range"

/-- The body of `GeneratePreParams` after concurrency resolution
(prepare.go:34-68).  The two goroutines are modelled as two collaborator
calls whose results are joined unconditionally, exactly as the two blocking
channel receives at prepare.go:55 join them; the error return of
`paillier.GenerateKeyPair` is discarded, mirroring the blank identifier at
prepare.go:41. -/
def generatePreParamsResolved (env : Env) (concurrency : Int) : RunResult :=
  let paiSK := (env.generateKeyPair PaillierModulusLen).1
  match env.getRandomGermainPrimesConcurrent SafePrimeBitLen 2 concurrency with
  | g0 :: g1 :: _ =>
    match env.generateNTildei g0.SafePrime g1.SafePrime with
    | Except.error e =>
      { trace := [Call.paillierGenerateKeyPair PaillierModulusLen,
                  Call.getRandomGermainPrimesConcurrent SafePrimeBitLen 2 concurrency,
                  Call.generateNTildei g0.SafePrime g1.SafePrime],
        outcome := Outcome.returned none (some e) }
    | Except.ok (nt, k1, k2) =>
      { trace := [Call.paillierGenerateKeyPair PaillierModulusLen,
                  Call.getRandomGermainPrimesConcurrent SafePrimeBitLen 2 concurrency,
                  Call.generateNTildei g0.SafePrime g1.SafePrime],
        outcome := Outcome.returned
          (some { PaillierSK := paiSK, NTildei := nt, H1i := k1, H2i := k2 }) none }
  | _ =>
    { trace := [Call.paillierGenerateKeyPair PaillierModulusLen,
                Call.getRandomGermainPrimesConcurrent SafePrimeBitLen 2 concurrency],
      outcome := Outcome.panicked indexPanicMsg }

/-- Shallow embedding of `GeneratePreParams` (prepare.go:23-69): resolve the
concurrency from the variadic argument — panicking when more than one item
is supplied, defaulting to `runtime.NumCPU()` when none is — then run the
body. -/
def GeneratePreParams (env : Env) (optionalConcurrency : List Int) : RunResult :=
  if 0 < optionalConcurrency.length then
    if 1 < optionalConcurrency.length then
      { trace := [], outcome := Outcome.panicked argPanicMsg }
    else
      generatePreParamsResolved env (optionalConcurrency.headD 0)
  else
    generatePreParamsResolved env (Int.ofNat env.numCPU)

/-- Modelled from the spec: `crypto.GenerateNTildei` (package `crypto`, not
under study here).  Per spec §4.3 the derivation computes NTilde = p1·p2,
samples h1 from the multiplicative group modulo NTilde (failing if the
sample is not invertible), samples a secret exponent alpha, and computes
h2 = h1^alpha mod NTilde.  The random samples h1 and alpha are explicit
parameters so the function is deterministic. -/
def GenerateNTildei (h1 alpha : Nat) (p1 p2 : Nat) : Except Err (Nat × Nat × Nat) :=
  let NTilde := p1 * p2
  if Nat.gcd (h1 % NTilde) NTilde = 1 then
    Except.ok (NTilde, h1 % NTilde, (h1 % NTilde) ^ alpha % NTilde)
  else
    Except.error "generateNTildei: h1 not invertible"

/-! ### Basic unfolding lemmas -/

theorem gpp_nil (env : Env) :
    GeneratePreParams env [] = generatePreParamsResolved env (Int.ofNat env.numCPU) := rfl

theorem gpp_one (env : Env) (c : Int) :
    GeneratePreParams env [c] = generatePreParamsResolved env c := rfl

theorem gpp_two (env : Env) (a b : Int) (rest : List Int) :
    GeneratePreParams env (a :: b :: rest) =
      { trace := [], outcome := Outcome.panicked argPanicMsg } := by
  simp [GeneratePreParams]

/-- Complete case analysis of the body: either the safe-prime search
delivered at least two primes and the run ended at the NTilde derivation
(error or success), or it delivered fewer than two and the run ended in the
index-out-of-range panic. -/
theorem resolved_spec (env : Env) (c : Int) :
    (∃ g0 g1 rest,
      env.getRandomGermainPrimesConcurrent SafePrimeBitLen 2 c = g0 :: g1 :: rest ∧
      ((∃ e, env.generateNTildei g0.SafePrime g1.SafePrime = Except.error e ∧
        generatePreParamsResolved env c =
          { trace := [Call.paillierGenerateKeyPair PaillierModulusLen,
                      Call.getRandomGermainPrimesConcurrent SafePrimeBitLen 2 c,
                      Call.generateNTildei g0.SafePrime g1.SafePrime],
            outcome := Outcome.returned none (some e) }) ∨
       (∃ nt k1 k2, env.generateNTildei g0.SafePrime g1.SafePrime = Except.ok (nt, k1, k2) ∧
        generatePreParamsResolved env c =
          { trace := [Call.paillierGenerateKeyPair PaillierModulusLen,
                      Call.getRandomGermainPrimesConcurrent SafePrimeBitLen 2 c,
                      Call.generateNTildei g0.SafePrime g1.SafePrime],
            outcome := Outcome.returned
              (some { PaillierSK := (env.generateKeyPair PaillierModulusLen).1,
                      NTildei := nt, H1i := k1, H2i := k2 }) none }))) ∨
    ((env.getRandomGermainPrimesConcurrent SafePrimeBitLen 2 c).length < 2 ∧
      generatePreParamsResolved env c =
        { trace := [Call.paillierGenerateKeyPair PaillierModulusLen,
                    Call.getRandomGermainPrimesConcurrent SafePrimeBitLen 2 c],
          outcome := Outcome.panicked indexPanicMsg }) := by
  rcases hg : env.getRandomGermainPrimesConcurrent SafePrimeBitLen 2 c with _ | ⟨g0, _ | ⟨g1, rest⟩⟩
  · right
    exact ⟨by simp [hg], by simp [generatePreParamsResolved, hg]⟩
  · right
    exact ⟨by simp [hg], by simp [generatePreParamsResolved, hg]⟩
  · left
    refine ⟨g0, g1, rest, rfl, ?_⟩
    rcases he : env.generateNTildei g0.SafePrime g1.SafePrime with e | ⟨nt, k1, k2⟩
    · exact Or.inl ⟨e, rfl, by simp [generatePreParamsResolved, hg, he]⟩
    · exact Or.inr ⟨nt, k1, k2, rfl, by simp [generatePreParamsResolved, hg, he]⟩

/-- The body never raises the argument-handling panic of prepare.go:27. -/
theorem resolved_not_argPanic (env : Env) (c : Int) :
    (generatePreParamsResolved env c).outcome ≠ Outcome.panicked argPanicMsg := by
  rcases resolved_spec env c with ⟨g0, g1, rest, hg, ⟨e, he, hr⟩ | ⟨nt, k1, k2, he, hr⟩⟩ | ⟨hlen, hr⟩ <;>
    rw [hr] <;> simp [argPanicMsg, indexPanicMsg]

/-- The first two trace entries of the body are always the two subtask
launches, with their exact arguments. -/
theorem resolved_trace_launches (env : Env) (c : Int) :
    (generatePreParamsResolved env c).trace.take 2 =
      [Call.paillierGenerateKeyPair PaillierModulusLen,
       Call.getRandomGermainPrimesConcurrent SafePrimeBitLen 2 c] := by
  rcases resolved_spec env c with ⟨g0, g1, rest, hg, ⟨e, he, hr⟩ | ⟨nt, k1, k2, he, hr⟩⟩ | ⟨hlen, hr⟩ <;>
    rw [hr] <;> rfl

/-- The safe-prime search launch, with the resolved concurrency, is always
in the body's trace. -/
theorem resolved_trace_mem_germain (env : Env) (c : Int) :
    Call.getRandomGermainPrimesConcurrent SafePrimeBitLen 2 c ∈
      (generatePreParamsResolved env c).trace := by
  rcases resolved_spec env c with ⟨g0, g1, rest, hg, ⟨e, he, hr⟩ | ⟨nt, k1, k2, he, hr⟩⟩ | ⟨hlen, hr⟩ <;>
    rw [hr] <;> simp

/-- The Paillier key-generation launch is always in the body's trace. -/
theorem resolved_trace_mem_paillier (env : Env) (c : Int) :
    Call.paillierGenerateKeyPair PaillierModulusLen ∈
      (generatePreParamsResolved env c).trace := by
  rcases resolved_spec env c with ⟨g0, g1, rest, hg, ⟨e, he, hr⟩ | ⟨nt, k1, k2, he, hr⟩⟩ | ⟨hlen, hr⟩ <;>
    rw [hr] <;> simp

/-- Every error returned by the body is one reported by the NTilde
derivation on the two safe-prime values of the run. -/
theorem resolved_error_source (env : Env) (c : Int) (e : Err)
    (h : (generatePreParamsResolved env c).outcome = Outcome.returned none (some e)) :
    ∃ p1 p2, env.generateNTildei p1 p2 = Except.error e ∧
      Call.generateNTildei p1 p2 ∈ (generatePreParamsResolved env c).trace := by
  rcases resolved_spec env c with ⟨g0, g1, rest, hg, ⟨e2, he, hr⟩ | ⟨nt, k1, k2, he, hr⟩⟩ | ⟨hlen, hr⟩
  · rw [hr] at h ⊢
    simp only [Outcome.returned.injEq, Option.some.injEq] at h
    refine ⟨g0.SafePrime, g1.SafePrime, ?_, by simp⟩
    rw [← h.2]
    exact he
  · rw [hr] at h
    simp at h
  · rw [hr] at h
    simp at h

/-- Every successful result of the body carries the (possibly absent)
Paillier secret exactly as delivered by the Paillier task, and commitment
fields exactly as delivered by a successful NTilde derivation on the two
safe-prime values of the run. -/
theorem resolved_success_shape (env : Env) (c : Int) (pp : LocalPreParams)
    (h : (generatePreParamsResolved env c).outcome = Outcome.returned (some pp) none) :
    pp.PaillierSK = (env.generateKeyPair PaillierModulusLen).1 ∧
    ∃ g0 g1 rest,
      env.getRandomGermainPrimesConcurrent SafePrimeBitLen 2 c = g0 :: g1 :: rest ∧
      env.generateNTildei g0.SafePrime g1.SafePrime =
        Except.ok (pp.NTildei, pp.H1i, pp.H2i) ∧
      Call.generateNTildei g0.SafePrime g1.SafePrime ∈
        (generatePreParamsResolved env c).trace := by
  rcases resolved_spec env c with ⟨g0, g1, rest, hg, ⟨e2, he, hr⟩ | ⟨nt, k1, k2, he, hr⟩⟩ | ⟨hlen, hr⟩
  · rw [hr] at h
    simp at h
  · rw [hr] at h ⊢
    simp only [Outcome.returned.injEq, Option.some.injEq] at h
    obtain ⟨rfl, -⟩ := h
    exact ⟨rfl, g0, g1, rest, hg, he, by simp⟩
  · rw [hr] at h
    simp at h

/-- Every non-panicking return of the body has exactly one of the two
return values present. -/
theorem resolved_xor_nil (env : Env) (c : Int) (pp : Option LocalPreParams) (e : Option Err)
    (h : (generatePreParamsResolved env c).outcome = Outcome.returned pp e) :
    (pp = none ∧ e ≠ none) ∨ (pp ≠ none ∧ e = none) := by
  rcases resolved_spec env c with ⟨g0, g1, rest, hg, ⟨e2, he, hr⟩ | ⟨nt, k1, k2, he, hr⟩⟩ | ⟨hlen, hr⟩ <;>
    rw [hr] at h
  · simp only [Outcome.returned.injEq] at h
    exact Or.inl ⟨h.1.symm, by rw [← h.2]; simp⟩
  · simp only [Outcome.returned.injEq] at h
    exact Or.inr ⟨by rw [← h.1]; simp, h.2.symm⟩
  · simp at h

/-- The only Paillier call in the body's trace is the launch with the fixed
modulus length. -/
theorem resolved_paillier_calls (env : Env) (c : Int) :
    (generatePreParamsResolved env c).trace.filter Call.isPaillierCall =
      [Call.paillierGenerateKeyPair PaillierModulusLen] := by
  rcases resolved_spec env c with ⟨g0, g1, rest, hg, ⟨e, he, hr⟩ | ⟨nt, k1, k2, he, hr⟩⟩ | ⟨hlen, hr⟩ <;>
    rw [hr] <;> rfl

/-! ### Concrete test environments

Small environments used to evaluate the orchestrator on concrete inputs.
The Germain primes q = 5, q = 11 give safe primes 11 and 23 with
NTilde = 253; q = 3, q = 5 give safe primes 7 and 11 with NTilde = 77. -/

/-- All collaborators succeed; numCPU = 4. -/
def envA : Env :=
  { numCPU := 4
    generateKeyPair := fun _ => (some ⟨7⟩, none)
    getRandomGermainPrimesConcurrent := fun _ _ _ => [⟨5⟩, ⟨11⟩]
    generateNTildei := GenerateNTildei 7 3 }

/-- The Paillier task fails (nil key, non-nil error); the rest succeeds. -/
def envB : Env :=
  { numCPU := 2
    generateKeyPair := fun _ => (none, some "paillier: generation failed")
    getRandomGermainPrimesConcurrent := fun _ _ _ => [⟨5⟩, ⟨11⟩]
    generateNTildei := GenerateNTildei 7 3 }

/-- The NTilde derivation fails: the sampled h1 = 11 divides NTilde = 253. -/
def envC : Env :=
  { numCPU := 1
    generateKeyPair := fun _ => (some ⟨3⟩, none)
    getRandomGermainPrimesConcurrent := fun _ _ _ => [⟨5⟩, ⟨11⟩]
    generateNTildei := GenerateNTildei 11 3 }

/-- The Paillier task fails; the safe primes are 7 and 11, NTilde = 77. -/
def envD : Env :=
  { numCPU := 8
    generateKeyPair := fun _ => (none, some "paillier key generation failed")
    getRandomGermainPrimesConcurrent := fun _ _ _ => [⟨3⟩, ⟨5⟩]
    generateNTildei := GenerateNTildei 13 5 }

/-- All collaborators succeed; numCPU = 4; Paillier secret key 9. -/
def envE : Env :=
  { numCPU := 4
    generateKeyPair := fun _ => (some ⟨9⟩, none)
    getRandomGermainPrimesConcurrent := fun _ _ _ => [⟨5⟩, ⟨11⟩]
    generateNTildei := GenerateNTildei 7 3 }

/-- The Paillier task fails; numCPU = 3; the rest succeeds. -/
def envH : Env :=
  { numCPU := 3
    generateKeyPair := fun _ => (none, some "paillier failed")
    getRandomGermainPrimesConcurrent := fun _ _ _ => [⟨5⟩, ⟨11⟩]
    generateNTildei := GenerateNTildei 7 3 }

/-! ### Claims -/

/-- C1, counterexample: invoked with the invalid concurrency value 0, the
call does not fail immediately with a configuration error — it silently
proceeds, launching the safe-prime search with concurrency 0 (cryptographic
computation is performed) and returning a normal result. -/
theorem C1_counterexample :
    Call.getRandomGermainPrimesConcurrent SafePrimeBitLen 2 0 ∈
      (GeneratePreParams envA [0]).trace ∧
    (GeneratePreParams envA [0]).outcome =
      Outcome.returned
        (some { PaillierSK := some ⟨7⟩, NTildei := 253, H1i := 7, H2i := 90 }) none := by
  decide

/-- C1, amended: when the concurrency argument is unspecified, the
safe-prime search is launched with concurrency equal to the host CPU count;
when a value is specified — any integer, including 0 and negative values —
that exact value is passed through to the safe-prime search, with no
validation and no configuration error. -/
theorem C1_concurrency_resolution (env : Env) (c : Int) :
    Call.getRandomGermainPrimesConcurrent SafePrimeBitLen 2 (Int.ofNat env.numCPU) ∈
      (GeneratePreParams env []).trace ∧
    Call.getRandomGermainPrimesConcurrent SafePrimeBitLen 2 c ∈
      (GeneratePreParams env [c]).trace := by
  constructor
  · rw [gpp_nil]
    exact resolved_trace_mem_germain env (Int.ofNat env.numCPU)
  · rw [gpp_one]
    exact resolved_trace_mem_germain env c

/-- C2, counterexample: the Paillier key generation reports an error, yet
the orchestrator returns success with no error and an absent Paillier secret
— the subtask failure is silently swallowed, not propagated. -/
theorem C2_counterexample :
    (envB.generateKeyPair PaillierModulusLen).2 = some "paillier: generation failed" ∧
    (GeneratePreParams envB []).outcome =
      Outcome.returned
        (some { PaillierSK := none, NTildei := 253, H1i := 7, H2i := 90 }) none := by
  decide

/-- C2, amended: the error return of paillier.GenerateKeyPair is discarded
(blank identifier at prepare.go:41); every error the orchestrator returns is
one reported by the NTilde derivation on values passed to it in the same
run, and a Paillier failure instead surfaces as an absent PaillierSK inside
a success result. -/
theorem C2_error_source (env : Env) (oc : List Int) (e : Err)
    (h : (GeneratePreParams env oc).outcome = Outcome.returned none (some e)) :
    ∃ p1 p2, env.generateNTildei p1 p2 = Except.error e ∧
      Call.generateNTildei p1 p2 ∈ (GeneratePreParams env oc).trace := by
  rcases oc with _ | ⟨a, _ | ⟨b, rest⟩⟩
  · rw [gpp_nil] at h ⊢
    exact resolved_error_source env _ e h
  · rw [gpp_one] at h ⊢
    exact resolved_error_source env a e h
  · rw [gpp_two] at h
    simp at h

/-- Witness for C2_error_source at the concrete environment envC. -/
theorem C2_error_source_witness :
    ∃ p1 p2, envC.generateNTildei p1 p2 =
        Except.error "generateNTildei: h1 not invertible" ∧
      Call.generateNTildei p1 p2 ∈ (GeneratePreParams envC []).trace :=
  C2_error_source envC [] "generateNTildei: h1 not invertible" (by decide)

/-- C3, counterexample: a partially populated result is returned — the
Paillier subtask failed, and the caller nevertheless receives a
PreparationResult whose Paillier secret key is absent, with no error. -/
theorem C3_counterexample :
    (envD.generateKeyPair PaillierModulusLen).2 = some "paillier key generation failed" ∧
    (GeneratePreParams envD []).outcome =
      Outcome.returned
        (some { PaillierSK := none, NTildei := 77, H1i := 13, H2i := 76 }) none := by
  decide

/-- C3, amended: the caller receives either a single error (with nil
result) or a result whose NTilde, h1, h2 fields come from a fully
successful derivation; the PaillierSK field, however, is whatever the
Paillier task delivered and may be absent when that subtask failed — only
the commitment fields are all-or-nothing. -/
theorem C3_success_shape (env : Env) (oc : List Int) (pp : LocalPreParams)
    (h : (GeneratePreParams env oc).outcome = Outcome.returned (some pp) none) :
    pp.PaillierSK = (env.generateKeyPair PaillierModulusLen).1 ∧
    ∃ p1 p2, env.generateNTildei p1 p2 = Except.ok (pp.NTildei, pp.H1i, pp.H2i) ∧
      Call.generateNTildei p1 p2 ∈ (GeneratePreParams env oc).trace := by
  rcases oc with _ | ⟨a, _ | ⟨b, rest⟩⟩
  · rw [gpp_nil] at h ⊢
    obtain ⟨hsk, g0, g1, rest, hg, hok, hmem⟩ := resolved_success_shape env _ pp h
    exact ⟨hsk, g0.SafePrime, g1.SafePrime, hok, hmem⟩
  · rw [gpp_one] at h ⊢
    obtain ⟨hsk, g0, g1, rest, hg, hok, hmem⟩ := resolved_success_shape env a pp h
    exact ⟨hsk, g0.SafePrime, g1.SafePrime, hok, hmem⟩
  · rw [gpp_two] at h
    simp at h

/-- Witness for C3_success_shape at the concrete environment envE. -/
theorem C3_success_shape_witness :
    ({ PaillierSK := some ⟨9⟩, NTildei := 253, H1i := 7, H2i := 90 } :
        LocalPreParams).PaillierSK = (envE.generateKeyPair PaillierModulusLen).1 ∧
    ∃ p1 p2, envE.generateNTildei p1 p2 = Except.ok (253, 7, 90) ∧
      Call.generateNTildei p1 p2 ∈ (GeneratePreParams envE [2]).trace :=
  C3_success_shape envE [2]
    { PaillierSK := some ⟨9⟩, NTildei := 253, H1i := 7, H2i := 90 } (by decide)

/-- C4, counterexample: one shape of bad concurrency input — two supplied
optional arguments — is signaled by an abrupt process-terminating failure
(the panic at prepare.go:27), not by an ordinary error result. -/
theorem C4_counterexample :
    (GeneratePreParams envE [1, 2]).outcome = Outcome.panicked argPanicMsg := by
  decide

/-- C4, amended: a non-positive concurrency value is signaled neither by a
panic nor by any error — the value is passed through to the safe-prime
search — while a wrong number of supplied optional arguments (two or more)
is signaled by a panic rather than by an error result. -/
theorem C4_invalid_config_behaviour (env : Env) (c : Int) (oc : List Int)
    (_hc : c ≤ 0) (hlen : 2 ≤ oc.length) :
    Call.getRandomGermainPrimesConcurrent SafePrimeBitLen 2 c ∈
      (GeneratePreParams env [c]).trace ∧
    (GeneratePreParams env oc).outcome = Outcome.panicked argPanicMsg := by
  constructor
  · rw [gpp_one]
    exact resolved_trace_mem_germain env c
  · rcases oc with _ | ⟨a, _ | ⟨b, rest⟩⟩
    · simp at hlen
    · simp at hlen
    · rw [gpp_two]

/-- Witness for C4_invalid_config_behaviour at concurrency -1 and the
two-element argument list [1, 2]. -/
theorem C4_invalid_config_behaviour_witness :
    Call.getRandomGermainPrimesConcurrent SafePrimeBitLen 2 (-1) ∈
      (GeneratePreParams envA [-1]).trace ∧
    (GeneratePreParams envA [1, 2]).outcome = Outcome.panicked argPanicMsg :=
  C4_invalid_config_behaviour envA (-1) [1, 2] (by decide) (by decide)

/-- C5: on every successful run (under the spec-modelled NTilde derivation,
for any sampled h1 and alpha), the returned NTildei equals the product of
the two safe-prime values (2q+1) of the two Germain primes delivered by the
same run's search, and the orchestrator passed exactly those two SafePrime
values to the derivation. -/
theorem C5_ntilde_product (env : Env) (oc : List Int) (h1 alpha : Nat)
    (hder : env.generateNTildei = GenerateNTildei h1 alpha)
    (pp : LocalPreParams)
    (h : (GeneratePreParams env oc).outcome = Outcome.returned (some pp) none) :
    ∃ c g0 g1 rest,
      env.getRandomGermainPrimesConcurrent SafePrimeBitLen 2 c = g0 :: g1 :: rest ∧
      Call.generateNTildei g0.SafePrime g1.SafePrime ∈ (GeneratePreParams env oc).trace ∧
      pp.NTildei = g0.SafePrime * g1.SafePrime := by
  have key : ∀ c2 : Int,
      (generatePreParamsResolved env c2).outcome = Outcome.returned (some pp) none →
      ∃ g0 g1 rest,
        env.getRandomGermainPrimesConcurrent SafePrimeBitLen 2 c2 = g0 :: g1 :: rest ∧
        Call.generateNTildei g0.SafePrime g1.SafePrime ∈
          (generatePreParamsResolved env c2).trace ∧
        pp.NTildei = g0.SafePrime * g1.SafePrime := by
    intro c2 h2
    obtain ⟨hsk, g0, g1, rest, hg, hok, hmem⟩ := resolved_success_shape env c2 pp h2
    refine ⟨g0, g1, rest, hg, hmem, ?_⟩
    rw [hder] at hok
    simp only [GenerateNTildei] at hok
    split at hok
    · exact (congrArg (fun v => v.1) (Except.ok.inj hok)).symm
    · cases hok
  rcases oc with _ | ⟨a, _ | ⟨b, rest⟩⟩
  · rw [gpp_nil] at h ⊢
    exact ⟨Int.ofNat env.numCPU, key _ h⟩
  · rw [gpp_one] at h ⊢
    exact ⟨a, key a h⟩
  · rw [gpp_two] at h
    simp at h

/-- Witness for C5_ntilde_product at the concrete environment envE, whose
derivation is the spec-modelled one with h1 = 7, alpha = 3. -/
theorem C5_ntilde_product_witness :
    ∃ c g0 g1 rest,
      envE.getRandomGermainPrimesConcurrent SafePrimeBitLen 2 c = g0 :: g1 :: rest ∧
      Call.generateNTildei g0.SafePrime g1.SafePrime ∈ (GeneratePreParams envE []).trace ∧
      ({ PaillierSK := some ⟨9⟩, NTildei := 253, H1i := 7, H2i := 90 } :
        LocalPreParams).NTildei = g0.SafePrime * g1.SafePrime :=
  C5_ntilde_product envE [] 7 3 rfl
    { PaillierSK := some ⟨9⟩, NTildei := 253, H1i := 7, H2i := 90 } (by decide)

/-- C6, counterexample: the Paillier task fails, yet the orchestrator does
not return the Paillier error: the safe-prime search is still launched, its
result is still consumed by the NTilde derivation, and the run returns a
success result — no cancellation, no error surfaced. -/
theorem C6_counterexample :
    (envH.generateKeyPair PaillierModulusLen).2 = some "paillier failed" ∧
    Call.getRandomGermainPrimesConcurrent SafePrimeBitLen 2 3 ∈
      (GeneratePreParams envH []).trace ∧
    Call.generateNTildei 11 23 ∈ (GeneratePreParams envH []).trace ∧
    (GeneratePreParams envH []).outcome ≠
      Outcome.returned none (some "paillier failed") := by
  decide

/-- C6, amended: the orchestrator has no cancellation — on every invocation
that passes argument handling it launches both subtasks and joins both
unconditionally, whatever either subtask delivers. -/
theorem C6_no_cancellation (env : Env) (oc : List Int) (hlen : oc.length ≤ 1) :
    Call.paillierGenerateKeyPair PaillierModulusLen ∈ (GeneratePreParams env oc).trace ∧
    ∃ c, Call.getRandomGermainPrimesConcurrent SafePrimeBitLen 2 c ∈
      (GeneratePreParams env oc).trace := by
  rcases oc with _ | ⟨a, _ | ⟨b, rest⟩⟩
  · rw [gpp_nil]
    exact ⟨resolved_trace_mem_paillier env _, _, resolved_trace_mem_germain env _⟩
  · rw [gpp_one]
    exact ⟨resolved_trace_mem_paillier env a, a, resolved_trace_mem_germain env a⟩
  · simp at hlen

/-- Witness for C6_no_cancellation at the concrete environment envH, whose
Paillier task fails. -/
theorem C6_no_cancellation_witness :
    Call.paillierGenerateKeyPair PaillierModulusLen ∈ (GeneratePreParams envH []).trace ∧
    ∃ c, Call.getRandomGermainPrimesConcurrent SafePrimeBitLen 2 c ∈
      (GeneratePreParams envH []).trace :=
  C6_no_cancellation envH [] (by decide)

/-- C7: on every invocation that passes argument handling, the two subtasks
are launched — the first two trace entries — with exactly the arguments
PaillierModulusLen for the Paillier key generation and SafePrimeBitLen,
count = 2, and the resolved concurrency for the safe-prime search. -/
theorem C7_launch_arguments (env : Env) (oc : List Int) (hlen : oc.length ≤ 1) :
    ∃ c, (GeneratePreParams env oc).trace.take 2 =
      [Call.paillierGenerateKeyPair PaillierModulusLen,
       Call.getRandomGermainPrimesConcurrent SafePrimeBitLen 2 c] := by
  rcases oc with _ | ⟨a, _ | ⟨b, rest⟩⟩
  · rw [gpp_nil]
    exact ⟨_, resolved_trace_launches env _⟩
  · rw [gpp_one]
    exact ⟨a, resolved_trace_launches env a⟩
  · simp at hlen

/-- Witness for C7_launch_arguments at the concrete environment envE with a
single supplied concurrency value 3. -/
theorem C7_launch_arguments_witness :
    ∃ c, (GeneratePreParams envE [3]).trace.take 2 =
      [Call.paillierGenerateKeyPair PaillierModulusLen,
       Call.getRandomGermainPrimesConcurrent SafePrimeBitLen 2 c] :=
  C7_launch_arguments envE [3] (by decide)

/-- C8: on every non-panicking return, exactly one of the two return values
is nil — an error comes with a nil result pointer, and a nil error comes
with a non-nil result pointer. -/
theorem C8_result_xor_error (env : Env) (oc : List Int)
    (pp : Option LocalPreParams) (e : Option Err)
    (h : (GeneratePreParams env oc).outcome = Outcome.returned pp e) :
    (pp = none ∧ e ≠ none) ∨ (pp ≠ none ∧ e = none) := by
  rcases oc with _ | ⟨a, _ | ⟨b, rest⟩⟩
  · rw [gpp_nil] at h
    exact resolved_xor_nil env _ pp e h
  · rw [gpp_one] at h
    exact resolved_xor_nil env a pp e h
  · rw [gpp_two] at h
    simp at h

/-- Witness for C8_result_xor_error at the concrete environment envE. -/
theorem C8_result_xor_error_witness :
    ((some { PaillierSK := some ⟨9⟩, NTildei := 253, H1i := 7, H2i := 90 } :
        Option LocalPreParams) = none ∧ (none : Option Err) ≠ none) ∨
    ((some { PaillierSK := some ⟨9⟩, NTildei := 253, H1i := 7, H2i := 90 } :
        Option LocalPreParams) ≠ none ∧ (none : Option Err) = none) :=
  C8_result_xor_error envE []
    (some { PaillierSK := some ⟨9⟩, NTildei := 253, H1i := 7, H2i := 90 }) none (by decide)

/-- C9: the orchestrator's argument handling panics exactly when two or
more elements are supplied in the variadic argument; with zero or one
element it never raises that panic, whatever the value supplied. -/
theorem C9_arg_panic_iff (env : Env) (oc : List Int) :
    (GeneratePreParams env oc).outcome = Outcome.panicked argPanicMsg ↔ 2 ≤ oc.length := by
  constructor
  · intro h
    rcases oc with _ | ⟨a, _ | ⟨b, rest⟩⟩
    · rw [gpp_nil] at h
      exact absurd h (resolved_not_argPanic env _)
    · rw [gpp_one] at h
      exact absurd h (resolved_not_argPanic env a)
    · simp
  · intro h
    rcases oc with _ | ⟨a, _ | ⟨b, rest⟩⟩
    · simp at h
    · simp at h
    · rw [gpp_two]

/-- C10: the Paillier generator is invoked exactly once per run, always
with the fixed constant PaillierModulusLen, independently of the concurrency
argument: two runs differing only in the supplied concurrency value, and a
run with the defaulted value, all make identical Paillier calls. -/
theorem C10_paillier_independent_of_concurrency (env : Env) (c1 c2 : Int) :
    (GeneratePreParams env [c1]).trace.filter Call.isPaillierCall =
      [Call.paillierGenerateKeyPair PaillierModulusLen] ∧
    (GeneratePreParams env [c1]).trace.filter Call.isPaillierCall =
      (GeneratePreParams env [c2]).trace.filter Call.isPaillierCall ∧
    (GeneratePreParams env []).trace.filter Call.isPaillierCall =
      (GeneratePreParams env [c1]).trace.filter Call.isPaillierCall := by
  rw [gpp_nil, gpp_one, gpp_one]
  rw [resolved_paillier_calls env c1, resolved_paillier_calls env c2,
    resolved_paillier_calls env (Int.ofNat env.numCPU)]
  exact ⟨rfl, rfl, rfl⟩

end TssLib
